import Mathlib

/-
  Verification development for the HelpDesk ticketing system
  (src/database.py).  The SQLite-backed persistence layer is embedded
  shallowly: the two tables become lists of records, timestamps become
  rationals (julian-day values, so differences are fractional days, as
  produced by SQLite's JULIANDAY), SQL NULL becomes Option, and each
  method of the Database class becomes a Lean function over an explicit
  database state.  A statement that SQLite aborts (CHECK-constraint
  violation) is modelled as Except.error; an aborted statement leaves
  the state unchanged, so the error constructor carries no state.
  The password hash (hashlib.sha256(...).hexdigest() in
  Database._hash_password) is passed as an explicit function parameter
  hashFn: no claim depends on the internals of SHA-256, only on hashes
  being compared for equality.
-/

namespace HelpDesk

/-- Row of the users table (src/database.py, create_tables): id INTEGER
PRIMARY KEY AUTOINCREMENT, username TEXT UNIQUE NOT NULL, password TEXT
NOT NULL (the stored hash), role TEXT NOT NULL. -/
structure User where
  id : Nat
  username : String
  password : String
  role : String
deriving Repr, DecidableEq

/-- Row of the tickets table (src/database.py, create_tables).
created_at has DEFAULT CURRENT_TIMESTAMP and is set on every insert
performed by the repository; updated_at, agent_id and resolved_at are
nullable. -/
structure Ticket where
  id : Nat
  title : String
  description : String
  status : String
  created_at : ℚ
  updated_at : Option ℚ
  requester_id : Nat
  agent_id : Option Nat
  resolved_at : Option ℚ
deriving Repr, DecidableEq

/-- The database state: the two tables plus the AUTOINCREMENT counters
for their INTEGER PRIMARY KEY columns. -/
structure Db where
  users : List User
  tickets : List Ticket
  next_user_id : Nat
  next_ticket_id : Nat
deriving Repr, DecidableEq

/-- The CHECK constraint on tickets.status from create_tables:
status IN ('Open', 'In Progress', 'Resolved'). -/
def validStatus (s : String) : Bool :=
  s == "Open" || s == "In Progress" || s == "Resolved"

/-- The CHECK constraint on users.role from create_tables:
role IN ('admin', 'agent', 'requester'). -/
def validRole (r : String) : Bool :=
  r == "admin" || r == "agent" || r == "requester"

/-- SQL join on users.id: the unique row (if any) whose id matches;
find? mirrors fetchone / a join against a PRIMARY KEY column. -/
def findUserById (db : Db) (i : Nat) : Option User :=
  db.users.find? (fun u => u.id == i)

/-- Database.check_credentials: SELECT id, username, role FROM users
WHERE username = ? AND password = ?, where the password parameter is
the hash of the supplied plaintext; fetchone returns the first match
or None. -/
def check_credentials (hashFn : String → String) (db : Db)
    (username password : String) : Option (Nat × String × String) :=
  (db.users.find? (fun u =>
    u.username == username && u.password == hashFn password)).map
    (fun u => (u.id, u.username, u.role))

/-- Database.register_user: rejects a role outside
['requester', 'agent'] before touching the table; then INSERT, with the
UNIQUE constraint on username surfacing as sqlite3.IntegrityError,
caught and turned into the duplicate-username failure.  Returns the
(ok, message) pair together with the resulting state. -/
def register_user (hashFn : String → String) (db : Db)
    (username password role : String) : (Bool × String) × Db :=
  if role == "requester" || role == "agent" then
    if db.users.any (fun u => u.username == username) then
      ((false, "Username already exists."), db)
    else
      ((true, "User registered successfully."),
        { db with
          users := db.users ++
            [⟨db.next_user_id, username, hashFn password, role⟩],
          next_user_id := db.next_user_id + 1 })
  else
    ((false, "Invalid role specified."), db)

/-- Database.create_ticket: INSERT INTO tickets (title, description,
status, requester_id) VALUES (?, ?, 'Open', ?).  No validation is
performed; created_at takes DEFAULT CURRENT_TIMESTAMP (the call time),
updated_at, agent_id and resolved_at are NULL. -/
def create_ticket (db : Db) (title description : String)
    (requester_id : Nat) (now : ℚ) : Db :=
  { db with
    tickets := db.tickets ++
      [{ id := db.next_ticket_id
         title := title
         description := description
         status := "Open"
         created_at := now
         updated_at := none
         requester_id := requester_id
         agent_id := none
         resolved_at := none }],
    next_ticket_id := db.next_ticket_id + 1 }

/-- Database.assign_ticket: UPDATE tickets SET agent_id = ?,
updated_at = ? WHERE id = ?.  A non-matching id updates no row; no
error is raised either way (SQLite foreign keys are not enabled). -/
def assign_ticket (db : Db) (ticket_id agent_id : Nat) (now : ℚ) : Db :=
  { db with
    tickets := db.tickets.map (fun t =>
      if t.id = ticket_id then
        { t with agent_id := some agent_id, updated_at := some now }
      else t) }

/-- The row rewrite performed by Database.update_ticket_status on every
row matched by WHERE id = ?: status and updated_at are always set;
resolved_at is set to now when the new status is 'Resolved' and to NULL
otherwise. -/
def applyStatusUpdate (db : Db) (ticket_id : Nat) (new_status : String)
    (now : ℚ) : Db :=
  { db with
    tickets := db.tickets.map (fun t =>
      if t.id = ticket_id then
        { t with
          status := new_status
          updated_at := some now
          resolved_at := if new_status = "Resolved" then some now else none }
      else t) }

/-- Database.update_ticket_status: the UPDATE statement.  SQLite checks
the status CHECK constraint on each updated row, so the statement
aborts (sqlite3.IntegrityError, uncaught) exactly when some row matches
the id and the new status is outside the enum; with no matching row the
statement succeeds having changed nothing. -/
def update_ticket_status (db : Db) (ticket_id : Nat) (new_status : String)
    (now : ℚ) : Except String Db :=
  if db.tickets.any (fun t => t.id == ticket_id) && !(validStatus new_status)
  then Except.error "CHECK constraint failed: status"
  else Except.ok (applyStatusUpdate db ticket_id new_status now)

/-- Result row of Database.get_ticket_details. -/
structure TicketDetails where
  id : Nat
  title : String
  description : String
  status : String
  requester : String
  agent : String
  created_at : ℚ
  updated_at : Option ℚ
  resolved_at : Option ℚ
deriving Repr, DecidableEq

/-- Database.get_ticket_details: SELECT joining tickets with users
twice: an inner JOIN on requester_id (a ticket whose requester row is
missing yields no row at all) and a LEFT JOIN on agent_id with
COALESCE(ag.username, 'Not Assigned'); fetchone. -/
def get_ticket_details (db : Db) (ticket_id : Nat) : Option TicketDetails :=
  match db.tickets.find? (fun t => t.id == ticket_id) with
  | none => none
  | some t =>
    match findUserById db t.requester_id with
    | none => none
    | some req =>
      some { id := t.id
             title := t.title
             description := t.description
             status := t.status
             requester := req.username
             agent := match t.agent_id with
               | none => "Not Assigned"
               | some a => match findUserById db a with
                 | some ag => ag.username
                 | none => "Not Assigned"
             created_at := t.created_at
             updated_at := t.updated_at
             resolved_at := t.resolved_at }

/-- Insertion step for ORDER BY key DESC: keeps the list sorted by
non-increasing key. -/
def insertDesc {α β : Type} [LinearOrder β] (key : α → β) (x : α) :
    List α → List α
  | [] => [x]
  | y :: ys => if key y ≤ key x then x :: y :: ys else y :: insertDesc key x ys

/-- ORDER BY key DESC, modelled as insertion sort. -/
def sortByDesc {α β : Type} [LinearOrder β] (key : α → β) :
    List α → List α
  | [] => []
  | x :: xs => insertDesc key x (sortByDesc key xs)

/-- Result row of Database.get_weekly_report. -/
structure WeeklyRow where
  id : Nat
  title : String
  agent : String
  updated_at : ℚ
deriving Repr, DecidableEq

/-- The per-ticket row of get_weekly_report before ordering: the inner
JOIN users ag ON t.agent_id = ag.id drops a ticket whose agent_id is
NULL or dangling, the WHERE clause keeps status = 'Resolved' and
updated_at >= now - 7 (a NULL updated_at fails the comparison). -/
def weeklyRow (db : Db) (now : ℚ) (t : Ticket) : Option WeeklyRow :=
  t.agent_id.bind (fun a =>
    (findUserById db a).bind (fun ag =>
      t.updated_at.bind (fun u =>
        if t.status = "Resolved" ∧ now - 7 ≤ u then
          some ⟨t.id, t.title, ag.username, u⟩
        else none)))

/-- Database.get_weekly_report: the filtered join of the tickets table,
ORDER BY t.updated_at DESC, evaluated at call time now (seven_days_ago
is now - 7 days). -/
def get_weekly_report (db : Db) (now : ℚ) : List WeeklyRow :=
  sortByDesc (fun r => r.updated_at) (db.tickets.filterMap (weeklyRow db now))

/-- Result row of Database.get_agent_performance_report. -/
structure PerfRow where
  username : String
  assigned_count : Nat
  resolved_count : Nat
  avg_resolution_days : Option ℚ
deriving Repr, DecidableEq

/-- One group of get_agent_performance_report, for agent u: the LEFT
JOIN tickets t ON u.id = t.agent_id grouped by the agent.
COUNT(t.id) counts the joined tickets (0 when none), SUM(CASE WHEN
t.status = 'Resolved' THEN 1 ELSE 0 END) counts the resolved ones, and
AVG(CASE WHEN t.status = 'Resolved' THEN JULIANDAY(t.resolved_at) -
JULIANDAY(t.created_at) ELSE NULL END) averages the non-NULL resolution
durations, yielding SQL NULL when there are none. -/
def agentRow (db : Db) (u : User) : PerfRow :=
  let assigned := db.tickets.filter (fun t => t.agent_id == some u.id)
  let resolved := assigned.filter (fun t => t.status == "Resolved")
  let durations := resolved.filterMap
    (fun t => t.resolved_at.map (fun r => r - t.created_at))
  { username := u.username
    assigned_count := assigned.length
    resolved_count := resolved.length
    avg_resolution_days :=
      if durations.isEmpty then none
      else some (durations.sum / (durations.length : ℚ)) }

/-- Database.get_agent_performance_report: one group per user WHERE
u.role = 'agent' (GROUP BY u.id, u.username), ORDER BY resolved_tickets
DESC. -/
def get_agent_performance_report (db : Db) : List PerfRow :=
  sortByDesc (fun r => r.resolved_count)
    ((db.users.filter (fun u => u.role == "agent")).map (agentRow db))

/-- The part of the sqlite schema that Database._update_schema
inspects: whether the tickets table exists and which columns it has. -/
structure Schema where
  tickets_exists : Bool
  tickets_columns : List String
deriving Repr, DecidableEq

/-- Database._update_schema: PRAGMA table_info(tickets) lists the
columns (an empty list when the table does not exist); if resolved_at
is absent, ALTER TABLE adds it.  The whole body is wrapped in
try/except, so the ALTER failing on a missing tickets table is
swallowed and the schema is left untouched; the function never raises. -/
def update_schema (s : Schema) : Schema :=
  if s.tickets_exists ∧ "resolved_at" ∉ s.tickets_columns then
    { s with tickets_columns := s.tickets_columns ++ ["resolved_at"] }
  else s

/-! Helper lemmas about the ORDER BY model and the PRIMARY KEY join. -/

theorem mem_insertDesc {α β : Type} [LinearOrder β] (key : α → β) (x a : α)
    (l : List α) : a ∈ insertDesc key x l ↔ a = x ∨ a ∈ l := by
  induction l with
  | nil => simp [insertDesc]
  | cons y ys ih =>
    rw [insertDesc]
    by_cases h : key y ≤ key x
    · simp [h]
    · simp only [if_neg h, List.mem_cons, ih]
      tauto

theorem mem_sortByDesc {α β : Type} [LinearOrder β] (key : α → β) (a : α)
    (l : List α) : a ∈ sortByDesc key l ↔ a ∈ l := by
  induction l with
  | nil => simp [sortByDesc]
  | cons x xs ih =>
    rw [sortByDesc, mem_insertDesc]
    simp [ih]

theorem length_insertDesc {α β : Type} [LinearOrder β] (key : α → β) (x : α)
    (l : List α) : (insertDesc key x l).length = l.length + 1 := by
  induction l with
  | nil => rfl
  | cons y ys ih =>
    rw [insertDesc]
    by_cases h : key y ≤ key x
    · simp [h]
    · simp [h, ih]

theorem length_sortByDesc {α β : Type} [LinearOrder β] (key : α → β)
    (l : List α) : (sortByDesc key l).length = l.length := by
  induction l with
  | nil => rfl
  | cons x xs ih => rw [sortByDesc, length_insertDesc, ih, List.length_cons]

theorem pairwise_insertDesc {α β : Type} [LinearOrder β] (key : α → β) (x : α)
    (l : List α) (h : l.Pairwise (fun a b => key b ≤ key a)) :
    (insertDesc key x l).Pairwise (fun a b => key b ≤ key a) := by
  induction l with
  | nil => simp [insertDesc]
  | cons y ys ih =>
    rw [List.pairwise_cons] at h
    rw [insertDesc]
    by_cases hxy : key y ≤ key x
    · rw [if_pos hxy, List.pairwise_cons]
      refine ⟨?_, List.pairwise_cons.mpr h⟩
      intro b hb
      rcases List.mem_cons.mp hb with hb | hb
      · exact hb ▸ hxy
      · exact le_trans (h.1 b hb) hxy
    · rw [if_neg hxy, List.pairwise_cons]
      refine ⟨?_, ih h.2⟩
      intro b hb
      rcases (mem_insertDesc key x b ys).mp hb with hb | hb
      · exact hb ▸ le_of_not_le hxy
      · exact h.1 b hb

theorem pairwise_sortByDesc {α β : Type} [LinearOrder β] (key : α → β)
    (l : List α) :
    (sortByDesc key l).Pairwise (fun a b => key b ≤ key a) := by
  induction l with
  | nil => simp [sortByDesc]
  | cons x xs ih => exact pairwise_insertDesc key x _ ih

theorem find?_by_id_of_mem {l : List User} {u : User}
    (hnd : (l.map User.id).Nodup) (hm : u ∈ l) :
    l.find? (fun v => v.id == u.id) = some u := by
  induction l with
  | nil => cases hm
  | cons a as ih =>
    rw [List.map_cons, List.nodup_cons] at hnd
    by_cases h : a.id = u.id
    · have hpred : (fun v : User => v.id == u.id) a = true := beq_iff_eq.mpr h
      rw [List.find?_cons_of_pos as hpred]
      rcases List.mem_cons.mp hm with rfl | hm2
      · rfl
      · exact absurd (h ▸ List.mem_map_of_mem User.id hm2) hnd.1
    · have hpred : ¬ ((fun v : User => v.id == u.id) a = true) := by
        simp only [beq_iff_eq]
        exact h
      rw [List.find?_cons_of_neg as hpred]
      rcases List.mem_cons.mp hm with rfl | hm2
      · exact absurd rfl h
      · exact ih hnd.2 hm2

theorem findUserById_of_mem {db : Db} {u : User}
    (hnd : (db.users.map User.id).Nodup) (hm : u ∈ db.users) :
    findUserById db u.id = some u :=
  find?_by_id_of_mem hnd hm

theorem map_id_of_no_match {l : List Ticket} {i : Nat}
    (f : Ticket → Ticket) (h : ∀ t ∈ l, t.id ≠ i) :
    l.map (fun t => if t.id = i then f t else t) = l := by
  induction l with
  | nil => rfl
  | cons a as ih =>
    rw [List.map_cons, if_neg (h a (List.mem_cons_self a as)),
      ih (fun t ht => h t (List.mem_cons_of_mem a ht))]

/-! Fixture databases used by witnesses and counterexamples. -/

/-- A freshly initialised database: no users, no tickets. -/
def dbEmpty : Db :=
  { users := [], tickets := [], next_user_id := 1, next_ticket_id := 1 }

/-- A small database: one requester, one agent, one open ticket. -/
def dbSmall : Db :=
  { users := [⟨1, "alice", "h1", "requester"⟩, ⟨2, "bob", "h2", "agent"⟩]
    tickets := [⟨1, "printer", "jam", "Open", 0, none, 1, none, none⟩]
    next_user_id := 3
    next_ticket_id := 2 }

/-- The status/resolution-timestamp invariant for one ticket row:
resolved_at is non-null exactly when the status is Resolved. -/
def resolvedInv (t : Ticket) : Prop :=
  t.resolved_at.isSome ↔ t.status = "Resolved"

/-- The invariant holding across the whole tickets table. -/
def dbResolvedInv (db : Db) : Prop :=
  ∀ t ∈ db.tickets, resolvedInv t

/-- Claim C1: for every ticket in the store, after every mutating
operation (create_ticket, assign_ticket, update_ticket_status), the
field resolved_at is non-null if and only if the ticket's status equals
'Resolved'.  Each of the three mutators preserves the invariant (for
update_ticket_status, on any successful outcome; a failed statement
leaves the state unchanged). -/
theorem c1_resolved_iff_status (db : Db) (ti de : String) (rid : Nat)
    (tid aid : Nat) (s : String) (now : ℚ) (h : dbResolvedInv db) :
    dbResolvedInv (create_ticket db ti de rid now) ∧
    dbResolvedInv (assign_ticket db tid aid now) ∧
    ∀ db2, update_ticket_status db tid s now = Except.ok db2 →
      dbResolvedInv db2 := by
  refine ⟨?_, ?_, ?_⟩
  · intro t ht
    rcases List.mem_append.mp ht with ht | ht
    · exact h t ht
    · rw [List.mem_singleton] at ht
      subst ht
      unfold resolvedInv
      simp
  · intro t ht
    rcases List.mem_map.mp ht with ⟨t0, ht0, rfl⟩
    by_cases hid : t0.id = tid
    · rw [if_pos hid]
      have h0 := h t0 ht0
      unfold resolvedInv at h0 ⊢
      exact h0
    · rw [if_neg hid]
      exact h t0 ht0
  · intro db2 hok
    unfold update_ticket_status at hok
    by_cases hc : (db.tickets.any (fun t => t.id == tid) &&
        !(validStatus s)) = true
    · rw [if_pos hc] at hok
      cases hok
    · rw [if_neg hc] at hok
      injection hok with hdb
      subst hdb
      intro t ht
      rcases List.mem_map.mp ht with ⟨t0, ht0, rfl⟩
      by_cases hid : t0.id = tid
      · rw [if_pos hid]
        unfold resolvedInv
        by_cases hres : s = "Resolved" <;> simp [hres]
      · rw [if_neg hid]
        exact h t0 ht0

/-- Witness for C1 at the concrete database dbSmall. -/
theorem c1_witness :
    dbResolvedInv (create_ticket dbSmall "x" "y" 1 1) ∧
    dbResolvedInv (assign_ticket dbSmall 1 2 1) ∧
    dbResolvedInv (applyStatusUpdate dbSmall 1 "Resolved" 1) := by
  have h := c1_resolved_iff_status dbSmall "x" "y" 1 1 2 "Resolved" 1
    (by unfold dbResolvedInv resolvedInv; decide)
  exact ⟨h.1, h.2.1, h.2.2 _ rfl⟩

/-- Claim C3, counterexample to the claim as stated: with no ticket of
id 1 in the store, update_ticket_status does not fail at all (no
TicketNotFound): it returns success with the store unchanged. -/
theorem c3_counterexample :
    dbEmpty.tickets = [] ∧
    update_ticket_status dbEmpty 1 "Open" 0 = Except.ok dbEmpty :=
  ⟨rfl, rfl⟩

/-- Claim C3 (amended): when the given ticket_id does not exist,
update_ticket_status succeeds and modifies nothing (a silent no-op,
not a TicketNotFound failure); when the ticket exists and new_status is
outside the enum, it fails with the status CHECK-constraint violation
(the code's InvalidStatus analogue, an uncaught sqlite3.IntegrityError)
and no ticket is modified. -/
theorem c3_status_update_failures (db : Db) (tid : Nat) (s : String)
    (now : ℚ) :
    ((∀ t ∈ db.tickets, t.id ≠ tid) →
      update_ticket_status db tid s now = Except.ok db) ∧
    ((∃ t ∈ db.tickets, t.id = tid) → validStatus s = false →
      update_ticket_status db tid s now =
        Except.error "CHECK constraint failed: status") := by
  constructor
  · intro h
    have hmap : applyStatusUpdate db tid s now = db := by
      unfold applyStatusUpdate
      rw [map_id_of_no_match _ h]
    have hany : db.tickets.any (fun t => t.id == tid) = false := by
      rw [List.any_eq_false]
      intro t ht
      simp only [beq_iff_eq]
      exact h t ht
    unfold update_ticket_status
    rw [hany, hmap]
    rfl
  · rintro ⟨t, ht, htid⟩ hs
    have hany : db.tickets.any (fun t => t.id == tid) = true :=
      List.any_eq_true.mpr ⟨t, ht, beq_iff_eq.mpr htid⟩
    unfold update_ticket_status
    rw [hany, hs]
    rfl

/-- Witness for C3 (amended) at concrete inputs: a missing id is a
silent success on the empty store; a bogus status on an existing ticket
is a constraint failure. -/
theorem c3_witness :
    update_ticket_status dbEmpty 7 "In Progress" 0 = Except.ok dbEmpty ∧
    update_ticket_status dbSmall 1 "Closed" 0 =
      Except.error "CHECK constraint failed: status" := by
  constructor
  · exact (c3_status_update_failures dbEmpty 7 "In Progress" 0).1 (by decide)
  · exact (c3_status_update_failures dbSmall 1 "Closed" 0).2 (by decide)
      (by decide)

/-- Claim C9: the schema migration is idempotent and total on startup:
a second consecutive run changes nothing (and, the function being
total, raises no error), and a run on a schema where the tickets table
does not yet exist changes nothing. -/
theorem c9_update_schema_idempotent (s : Schema) :
    update_schema (update_schema s) = update_schema s ∧
    (s.tickets_exists = false → update_schema s = s) := by
  constructor
  · unfold update_schema
    by_cases h1 : s.tickets_exists = true ∧ "resolved_at" ∉ s.tickets_columns
    · rw [if_pos h1, if_neg]
      rintro ⟨-, habs⟩
      exact habs (List.mem_append.mpr (Or.inr (List.mem_singleton.mpr rfl)))
    · rw [if_neg h1, if_neg h1]
  · intro h
    unfold update_schema
    rw [if_neg]
    rintro ⟨habs, -⟩
    rw [h] at habs
    cases habs

/-- Witness for C9 at two concrete schemas: a first-run schema with no
tickets table, and a legacy schema missing the resolved_at column. -/
theorem c9_witness :
    update_schema (update_schema ⟨false, []⟩) = update_schema ⟨false, []⟩ ∧
    update_schema ⟨false, []⟩ = (⟨false, []⟩ : Schema) ∧
    update_schema (update_schema ⟨true, ["id", "title"]⟩) =
      update_schema ⟨true, ["id", "title"]⟩ :=
  ⟨(c9_update_schema_idempotent ⟨false, []⟩).1,
   (c9_update_schema_idempotent ⟨false, []⟩).2 rfl,
   (c9_update_schema_idempotent ⟨true, ["id", "title"]⟩).1⟩

/-- A status UPDATE with a status inside the enum never trips the CHECK
constraint: it succeeds and performs the row rewrite. -/
theorem update_ok_of_valid (db : Db) (tid : Nat) (s : String) (now : ℚ)
    (hs : validStatus s = true) :
    update_ticket_status db tid s now =
      Except.ok (applyStatusUpdate db tid s now) := by
  unfold update_ticket_status
  rw [hs]
  simp

/-- The row matched by the WHERE clause is rewritten as the UPDATE
statement dictates. -/
theorem mem_applyStatusUpdate {db : Db} {t : Ticket} (ht : t ∈ db.tickets)
    {tid : Nat} (hid : t.id = tid) (s : String) (now : ℚ) :
    { t with
      status := s
      updated_at := some now
      resolved_at := if s = "Resolved" then some now else none } ∈
      (applyStatusUpdate db tid s now).tickets := by
  unfold applyStatusUpdate
  refine List.mem_map.mpr ⟨t, ht, ?_⟩
  simp only [if_pos hid]

/-- Claim C4: for an existing ticket, update_ticket_status with a valid
new_status succeeds, refreshes updated_at to the call time, sets
resolved_at to the call time when the new status is 'Resolved' and to
null otherwise; and the sequence Open, then Resolved, then In Progress
on one ticket leaves resolved_at null and status 'In Progress'. -/
theorem c4_set_status_effects (db : Db) (t : Ticket) (s : String)
    (now n1 n2 n3 : ℚ) (ht : t ∈ db.tickets) (hs : validStatus s = true) :
    update_ticket_status db t.id s now =
      Except.ok (applyStatusUpdate db t.id s now) ∧
    { t with
      status := s
      updated_at := some now
      resolved_at := if s = "Resolved" then some now else none } ∈
      (applyStatusUpdate db t.id s now).tickets ∧
    update_ticket_status db t.id "Open" n1 =
      Except.ok (applyStatusUpdate db t.id "Open" n1) ∧
    update_ticket_status (applyStatusUpdate db t.id "Open" n1) t.id
        "Resolved" n2 =
      Except.ok (applyStatusUpdate (applyStatusUpdate db t.id "Open" n1)
        t.id "Resolved" n2) ∧
    update_ticket_status (applyStatusUpdate (applyStatusUpdate db t.id
        "Open" n1) t.id "Resolved" n2) t.id "In Progress" n3 =
      Except.ok (applyStatusUpdate (applyStatusUpdate (applyStatusUpdate db
        t.id "Open" n1) t.id "Resolved" n2) t.id "In Progress" n3) ∧
    { t with
      status := "In Progress"
      updated_at := some n3
      resolved_at := none } ∈
      (applyStatusUpdate (applyStatusUpdate (applyStatusUpdate db t.id
        "Open" n1) t.id "Resolved" n2) t.id "In Progress" n3).tickets := by
  have h1 := mem_applyStatusUpdate ht rfl "Open" n1
  have h2 := mem_applyStatusUpdate h1 rfl "Resolved" n2
  have h3 := mem_applyStatusUpdate h2 rfl "In Progress" n3
  refine ⟨update_ok_of_valid db t.id s now hs,
    mem_applyStatusUpdate ht rfl s now,
    update_ok_of_valid db t.id "Open" n1 (by decide),
    update_ok_of_valid _ t.id "Resolved" n2 (by decide),
    update_ok_of_valid _ t.id "In Progress" n3 (by decide), ?_⟩
  simpa using h3

/-- Witness for C4: the Open, Resolved, In Progress sequence on the
ticket of dbSmall ends with status 'In Progress' and a null
resolved_at. -/
theorem c4_witness :
    ({ id := 1, title := "printer", description := "jam",
       status := "In Progress", created_at := 0, updated_at := some 3,
       requester_id := 1, agent_id := none, resolved_at := none } : Ticket) ∈
      (applyStatusUpdate (applyStatusUpdate (applyStatusUpdate dbSmall 1
        "Open" 1) 1 "Resolved" 2) 1 "In Progress" 3).tickets :=
  (c4_set_status_effects dbSmall
    ⟨1, "printer", "jam", "Open", 0, none, 1, none, none⟩ "Resolved" 5 1 2 3
    (by decide) (by decide)).2.2.2.2.2

/-- SELECT ... WHERE username = ? AND password = ? returns the stored
row of the matching user when usernames are unique (the UNIQUE
constraint on users.username). -/
theorem find?_credentials_of_mem {l : List User} {u : User} {pw : String}
    (hnd : (l.map User.username).Nodup) (hm : u ∈ l)
    (hp : u.password = pw) :
    l.find? (fun v => v.username == u.username && v.password == pw) =
      some u := by
  induction l with
  | nil => cases hm
  | cons a as ih =>
    rw [List.map_cons, List.nodup_cons] at hnd
    rcases List.mem_cons.mp hm with rfl | hm2
    · rw [List.find?_cons_of_pos as (by simp [hp])]
    · by_cases hname : a.username = u.username
      · exact absurd (hname ▸ List.mem_map_of_mem User.username hm2) hnd.1
      · rw [List.find?_cons_of_neg as (by simp [hname])]
        exact ih hnd.2 hm2

/-- Claim C6: check_credentials returns the stored user's
{id, username, role} exactly when a user with the given username exists
and the hash of the supplied password equals that user's stored hash;
any call in which no user matches both the username and the password
hash — whether the username is absent or the password is wrong —
returns the one generic failure value none, so the two failure causes
are indistinguishable from the return value. -/
theorem c6_check_credentials (hashFn : String → String) (db db2 : Db)
    (username password username2 password2 : String) (u : User)
    (hnd : (db.users.map User.username).Nodup)
    (hm : u ∈ db.users) (hn : u.username = username)
    (hp : u.password = hashFn password)
    (hfail : ∀ v ∈ db2.users,
      ¬(v.username = username2 ∧ v.password = hashFn password2)) :
    check_credentials hashFn db username password =
      some (u.id, u.username, u.role) ∧
    check_credentials hashFn db2 username2 password2 = none := by
  subst hn
  constructor
  · unfold check_credentials
    rw [find?_credentials_of_mem hnd hm hp]
    rfl
  · unfold check_credentials
    have hnone : db2.users.find? (fun v =>
        v.username == username2 && v.password == hashFn password2) = none := by
      rw [List.find?_eq_none]
      intro v hv
      simp only [Bool.and_eq_true, beq_iff_eq, not_and]
      intro h1 h2
      exact hfail v hv ⟨h1, h2⟩
    rw [hnone]
    rfl

/-- Witness for C6: on dbSmall (with the identity function standing in
for the hash), the correct password returns the stored row, and an
unknown username returns the same generic none as a wrong password
would. -/
theorem c6_witness :
    check_credentials (fun p => p) dbSmall "alice" "h1" =
      some (1, "alice", "requester") ∧
    check_credentials (fun p => p) dbSmall "mallory" "h1" = none :=
  c6_check_credentials (fun p => p) dbSmall dbSmall "alice" "h1" "mallory"
    "h1" ⟨1, "alice", "h1", "requester"⟩ (by decide) (by decide) rfl rfl
    (by decide)

/-- Claim C7, counterexample to the claim as stated: a user named alice
already exists in dbSmall, yet registering alice with the invalid role
admin fails with the invalid-role message, not the duplicate-username
message, because the role check runs first. -/
theorem c7_counterexample :
    "alice" ∈ dbSmall.users.map User.username ∧
    (register_user (fun p => p) dbSmall "alice" "pw" "admin").1 =
      (false, "Invalid role specified.") ∧
    (register_user (fun p => p) dbSmall "alice" "pw" "admin").1 ≠
      (false, "Username already exists.") := by
  decide

/-- Claim C7 (amended): register_user fails with the invalid-role
message for every role outside requester and agent (so no admin is
created through this path) and then adds no row; when the role is
allowed, it fails with the duplicate-username message whenever a user
with the given username already exists, adding no row; and on success
it stores the hashed password and the user table gains exactly one new
user with the given username and role.  (The amendment: the role check
precedes the duplicate check, so a duplicate username combined with an
invalid role reports the invalid role.) -/
theorem c7_register_user (hashFn : String → String) (db : Db)
    (username password role : String) :
    (role ≠ "requester" → role ≠ "agent" →
      register_user hashFn db username password role =
        ((false, "Invalid role specified."), db)) ∧
    ((role = "requester" ∨ role = "agent") →
      (∃ u ∈ db.users, u.username = username) →
      register_user hashFn db username password role =
        ((false, "Username already exists."), db)) ∧
    ((role = "requester" ∨ role = "agent") →
      (∀ u ∈ db.users, u.username ≠ username) →
      register_user hashFn db username password role =
        ((true, "User registered successfully."),
         { db with
           users := db.users ++
             [⟨db.next_user_id, username, hashFn password, role⟩],
           next_user_id := db.next_user_id + 1 })) := by
  refine ⟨?_, ?_, ?_⟩
  · intro h1 h2
    unfold register_user
    have hcond : (role == "requester" || role == "agent") = false := by
      simp [h1, h2]
    rw [hcond]
    rfl
  · intro hrole hdup
    have hcond : (role == "requester" || role == "agent") = true := by
      rcases hrole with rfl | rfl <;> rfl
    rcases hdup with ⟨u, hu, hname⟩
    have hany : db.users.any (fun v => v.username == username) = true :=
      List.any_eq_true.mpr ⟨u, hu, beq_iff_eq.mpr hname⟩
    unfold register_user
    rw [hcond, hany]
    rfl
  · intro hrole hfresh
    have hcond : (role == "requester" || role == "agent") = true := by
      rcases hrole with rfl | rfl <;> rfl
    have hany : db.users.any (fun v => v.username == username) = false := by
      rw [List.any_eq_false]
      intro v hv
      simp only [beq_iff_eq]
      exact hfresh v hv
    unfold register_user
    rw [hcond, hany]
    rfl

/-- Witness for C7 (amended) on dbSmall: the invalid role admin is
rejected even though alice exists; a duplicate alice with a valid role
is rejected with the duplicate message and no row; a fresh carol is
added as exactly one new row with the hashed password. -/
theorem c7_witness :
    register_user (fun p => p) dbSmall "alice" "pw" "admin" =
      ((false, "Invalid role specified."), dbSmall) ∧
    register_user (fun p => p) dbSmall "alice" "pw" "requester" =
      ((false, "Username already exists."), dbSmall) ∧
    register_user (fun p => p) dbSmall "carol" "pw" "agent" =
      ((true, "User registered successfully."),
       { users := [⟨1, "alice", "h1", "requester"⟩,
                   ⟨2, "bob", "h2", "agent"⟩, ⟨3, "carol", "pw", "agent"⟩]
         tickets := dbSmall.tickets
         next_user_id := 4
         next_ticket_id := 2 }) := by
  refine ⟨?_, ?_, ?_⟩
  · exact (c7_register_user (fun p => p) dbSmall "alice" "pw" "admin").1
      (by decide) (by decide)
  · exact (c7_register_user (fun p => p) dbSmall "alice" "pw"
      "requester").2.1 (Or.inl rfl) (by decide)
  · exact (c7_register_user (fun p => p) dbSmall "carol" "pw"
      "agent").2.2 (Or.inr rfl) (by decide)

/-- A find? over an appended list falls through to the second list when
the predicate holds nowhere in the first. -/
theorem find?_append_of_none {α : Type} {p : α → Bool} {l1 l2 : List α}
    (h : l1.find? p = none) : (l1 ++ l2).find? p = l2.find? p := by
  induction l1 with
  | nil => rfl
  | cons a as ih =>
    rw [List.find?_eq_none] at h
    have hpa : ¬ (p a = true) := h a (List.mem_cons_self a as)
    rw [List.cons_append, List.find?_cons_of_neg _ hpa]
    exact ih (List.find?_eq_none.mpr
      (fun x hx => h x (List.mem_cons_of_mem a hx)))

/-- Claim C8, counterexample to the claim as stated: on an empty store
(so user id 999 references nobody), create_ticket with empty title and
description succeeds and inserts the row — no validation of title,
description or requester happens in this function (the GUI checks
emptiness before calling it). -/
theorem c8_counterexample :
    dbEmpty.users = [] ∧
    (create_ticket dbEmpty "" "" 999 0).tickets =
      [⟨1, "", "", "Open", 0, none, 999, none, none⟩] :=
  ⟨rfl, rfl⟩

/-- Claim C8 (amended): create_ticket inserts unconditionally (the
non-empty-title/description check lives in the GUI, and the requester
foreign key is not enforced); the new ticket starts with status 'Open',
updated_at null, resolved_at null and no agent, so when the requester
row does exist, fetching the details immediately afterwards returns
status 'Open', agent 'Not Assigned' and a null resolved_at. -/
theorem c8_create_ticket (db : Db) (title description : String)
    (rid : Nat) (now : ℚ) (req : User)
    (hfresh : ∀ t ∈ db.tickets, t.id ≠ db.next_ticket_id)
    (hnd : (db.users.map User.id).Nodup)
    (hreq : req ∈ db.users) (hrid : req.id = rid) :
    (create_ticket db title description rid now).tickets =
      db.tickets ++ [⟨db.next_ticket_id, title, description, "Open", now,
        none, rid, none, none⟩] ∧
    get_ticket_details (create_ticket db title description rid now)
        db.next_ticket_id =
      some ⟨db.next_ticket_id, title, description, "Open", req.username,
        "Not Assigned", now, none, none⟩ := by
  refine ⟨rfl, ?_⟩
  have hnone : db.tickets.find?
      (fun t => t.id == db.next_ticket_id) = none := by
    rw [List.find?_eq_none]
    intro t ht
    simp only [beq_iff_eq]
    exact hfresh t ht
  have hfind : (create_ticket db title description rid now).tickets.find?
      (fun t => t.id == db.next_ticket_id) =
      some ⟨db.next_ticket_id, title, description, "Open", now, none, rid,
        none, none⟩ := by
    show (db.tickets ++ [(⟨db.next_ticket_id, title, description, "Open",
      now, none, rid, none, none⟩ : Ticket)]).find?
      (fun t => t.id == db.next_ticket_id) =
      some ⟨db.next_ticket_id, title, description, "Open", now, none, rid,
        none, none⟩
    rw [find?_append_of_none hnone]
    rw [List.find?_cons_of_pos _ (by simp)]
  have hfu : findUserById (create_ticket db title description rid now) rid =
      some req := hrid ▸ findUserById_of_mem hnd hreq
  unfold get_ticket_details
  rw [hfind]
  simp [hfu]

/-- Witness for C8 at dbSmall: the freshly created ticket is appended
and its details read back as Open, Not Assigned, null resolved_at. -/
theorem c8_witness :
    (create_ticket dbSmall "lamp" "broken" 1 4).tickets =
      dbSmall.tickets ++ [⟨2, "lamp", "broken", "Open", 4, none, 1, none,
        none⟩] ∧
    get_ticket_details (create_ticket dbSmall "lamp" "broken" 1 4) 2 =
      some ⟨2, "lamp", "broken", "Open", "alice", "Not Assigned", 4, none,
        none⟩ :=
  c8_create_ticket dbSmall "lamp" "broken" 1 4 ⟨1, "alice", "h1", "requester"⟩
    (by decide) (by decide) (by decide) rfl

/-- Inclusion half of the weekly report: a resolved ticket whose
updated_at is inside the seven-day window and whose agent_id references
a user contributes its row to the report. -/
theorem weekly_report_mem {db : Db} {now : ℚ} {t : Ticket} {ag : User}
    {u : ℚ} (hnd : (db.users.map User.id).Nodup) (ht : t ∈ db.tickets)
    (hst : t.status = "Resolved") (hup : t.updated_at = some u)
    (hle : now - 7 ≤ u) (hagid : t.agent_id = some ag.id)
    (hag : ag ∈ db.users) :
    (⟨t.id, t.title, ag.username, u⟩ : WeeklyRow) ∈
      get_weekly_report db now := by
  unfold get_weekly_report
  rw [mem_sortByDesc]
  refine List.mem_filterMap.mpr ⟨t, ht, ?_⟩
  unfold weeklyRow
  rw [hagid]
  simp only [Option.some_bind, findUserById_of_mem hnd hag, hup]
  rw [if_pos ⟨hst, hle⟩]

/-- Inversion of the weekly row construction: every produced row comes
from a resolved, assigned ticket whose updated_at is in the window. -/
theorem weeklyRow_eq_some {db : Db} {now : ℚ} {t : Ticket} {r : WeeklyRow}
    (h : weeklyRow db now t = some r) :
    r.id = t.id ∧ r.title = t.title ∧ t.status = "Resolved" ∧
    t.updated_at = some r.updated_at ∧ now - 7 ≤ r.updated_at ∧
    ∃ a, t.agent_id = some a := by
  unfold weeklyRow at h
  rcases hag : t.agent_id with _ | a <;> rw [hag] at h
  · rw [Option.none_bind] at h
    cases h
  · rw [Option.some_bind] at h
    rcases hfu : findUserById db a with _ | ag <;> rw [hfu] at h
    · rw [Option.none_bind] at h
      cases h
    · rw [Option.some_bind] at h
      rcases hup : t.updated_at with _ | u <;> rw [hup] at h
      · rw [Option.none_bind] at h
        cases h
      · rw [Option.some_bind] at h
        by_cases hc : t.status = "Resolved" ∧ now - 7 ≤ u
        · rw [if_pos hc] at h
          injection h with h
          subst h
          exact ⟨rfl, rfl, hc.1, rfl, hc.2, a, rfl⟩
        · rw [if_neg hc] at h
          cases h

/-- A database whose only ticket is resolved and recently updated but
assigned to nobody. -/
def dbWeekly : Db :=
  { users := [⟨2, "bob", "h2", "agent"⟩]
    tickets := [⟨1, "vpn", "down", "Resolved", 0, some 10, 1, none, some 10⟩]
    next_user_id := 3
    next_ticket_id := 2 }

/-- Claim C2, counterexample to the claim as stated: dbWeekly holds a
ticket with status 'Resolved' and updated_at inside the window at call
time 10, yet get_weekly_report returns no rows, because the query
inner-joins users on agent_id and the ticket is unassigned. -/
theorem c2_counterexample :
    dbWeekly.tickets.map Ticket.status = ["Resolved"] ∧
    dbWeekly.tickets.map Ticket.updated_at = [some 10] ∧
    ((10 : ℚ) - 7 ≤ 10) ∧
    get_weekly_report dbWeekly 10 = [] := by
  refine ⟨rfl, rfl, by norm_num, ?_⟩
  decide

/-- Claim C2 (amended): get_weekly_report returns a row for every
ticket with status 'Resolved', updated_at at or after now minus 7 days
(inclusive), and — the amendment — a non-null agent_id referencing an
existing user (the query inner-joins users on agent_id, so a resolved
unassigned ticket is omitted); each row carries the ticket id, title,
agent username and updated_at; every returned row satisfies the window
bound and stems from such a ticket (so a ticket more than 7 days stale
contributes nothing); rows are ordered by updated_at descending. -/
theorem c2_weekly_report (db : Db) (now : ℚ)
    (hnd : (db.users.map User.id).Nodup) :
    (∀ t ∈ db.tickets, ∀ ag ∈ db.users, ∀ u : ℚ,
      t.status = "Resolved" → t.updated_at = some u → now - 7 ≤ u →
      t.agent_id = some ag.id →
      (⟨t.id, t.title, ag.username, u⟩ : WeeklyRow) ∈
        get_weekly_report db now) ∧
    (∀ r ∈ get_weekly_report db now, now - 7 ≤ r.updated_at ∧
      ∃ t ∈ db.tickets, r.id = t.id ∧ r.title = t.title ∧
        t.status = "Resolved" ∧ t.updated_at = some r.updated_at ∧
        ∃ a, t.agent_id = some a) ∧
    (get_weekly_report db now).Pairwise
      (fun a b => b.updated_at ≤ a.updated_at) := by
  refine ⟨?_, ?_, ?_⟩
  · intro t ht ag hag u hst hup hle hagid
    exact weekly_report_mem hnd ht hst hup hle hagid hag
  · intro r hr
    rw [get_weekly_report, mem_sortByDesc] at hr
    rcases List.mem_filterMap.mp hr with ⟨t, ht, hrow⟩
    rcases weeklyRow_eq_some hrow with ⟨h1, h2, h3, h4, h5, h6⟩
    exact ⟨h5, t, ht, h1, h2, h3, h4, h6⟩
  · exact pairwise_sortByDesc _ _

/-- A database with two recent resolved assigned tickets and one stale
one, for exercising the weekly report. -/
def dbRecent : Db :=
  { users := [⟨1, "alice", "h1", "requester"⟩, ⟨2, "bob", "h2", "agent"⟩]
    tickets := [⟨1, "vpn", "down", "Resolved", 0, some 9, 1, some 2, some 9⟩,
                ⟨2, "mail", "slow", "Resolved", 0, some 5, 1, some 2, some 5⟩,
                ⟨3, "old", "case", "Resolved", 0, some 1, 1, some 2, some 1⟩]
    next_user_id := 3
    next_ticket_id := 4 }

/-- Witness for C2 (amended): at call time 10 the ticket updated at
time 9 appears in the report of dbRecent. -/
theorem c2_witness :
    (⟨1, "vpn", "bob", 9⟩ : WeeklyRow) ∈ get_weekly_report dbRecent 10 :=
  (c2_weekly_report dbRecent 10 (by decide)).1
    ⟨1, "vpn", "down", "Resolved", 0, some 9, 1, some 2, some 9⟩ (by decide)
    ⟨2, "bob", "h2", "agent"⟩ (by decide) 9 rfl rfl (by norm_num) rfl

/-- A database whose only ticket was resolved long ago (resolved_at far
outside the window) and is unassigned. -/
def dbOld : Db :=
  { users := [⟨2, "bob", "h2", "agent"⟩]
    tickets := [⟨1, "legacy", "old", "Resolved", 0, some 1, 1, none, some 1⟩]
    next_user_id := 3
    next_ticket_id := 2 }

/-- Claim C10: assigning an existing agent to a ticket whose status is
'Resolved' sets updated_at to the call time while leaving status and
resolved_at untouched, so immediately afterwards the ticket meets the
weekly report filter and its row appears in get_weekly_report, even
though its resolved_at lies more than 7 days before the call. -/
theorem c10_assign_refreshes_window (db : Db) (t : Ticket) (ag : User)
    (now rold : ℚ) (hnd : (db.users.map User.id).Nodup)
    (ht : t ∈ db.tickets) (hst : t.status = "Resolved")
    (hag : ag ∈ db.users) (hres : t.resolved_at = some rold)
    (hold : rold < now - 7) :
    { t with agent_id := some ag.id, updated_at := some now } ∈
      (assign_ticket db t.id ag.id now).tickets ∧
    ({ t with agent_id := some ag.id, updated_at := some now } :
      Ticket).status = "Resolved" ∧
    ({ t with agent_id := some ag.id, updated_at := some now } :
      Ticket).resolved_at = some rold ∧
    (⟨t.id, t.title, ag.username, now⟩ : WeeklyRow) ∈
      get_weekly_report (assign_ticket db t.id ag.id now) now := by
  have hmem : { t with agent_id := some ag.id, updated_at := some now } ∈
      (assign_ticket db t.id ag.id now).tickets := by
    unfold assign_ticket
    refine List.mem_map.mpr ⟨t, ht, ?_⟩
    simp
  refine ⟨hmem, hst, hres, ?_⟩
  have hrow := @weekly_report_mem (assign_ticket db t.id ag.id now) now
    { t with agent_id := some ag.id, updated_at := some now } ag now
    hnd hmem hst rfl (by linarith) rfl hag
  exact hrow

/-- Witness for C10: the long-resolved unassigned ticket of dbOld,
assigned to bob at time 20, appears in the weekly report evaluated at
time 20 although it was resolved at time 1. -/
theorem c10_witness :
    (⟨1, "legacy", "bob", 20⟩ : WeeklyRow) ∈
      get_weekly_report (assign_ticket dbOld 1 2 20) 20 :=
  (c10_assign_refreshes_window dbOld
    ⟨1, "legacy", "old", "Resolved", 0, some 1, 1, none, some 1⟩
    ⟨2, "bob", "h2", "agent"⟩ 20 1 (by decide) (by decide) rfl (by decide)
    rfl (by norm_num)).2.2.2

/-- When every ticket of the list has a resolution timestamp, the AVG
input (which skips SQL NULL durations) degenerates to the plain list of
durations, one per ticket. -/
theorem filterMap_durations_eq {l : List Ticket}
    (h : ∀ t ∈ l, t.resolved_at.isSome) :
    l.filterMap (fun t => t.resolved_at.map (fun r => r - t.created_at)) =
    l.map (fun t => t.resolved_at.getD 0 - t.created_at) := by
  induction l with
  | nil => rfl
  | cons a as ih =>
    rcases Option.isSome_iff_exists.mp (h a (List.mem_cons_self a as)) with
      ⟨r, hr⟩
    rw [@List.filterMap_cons_some Ticket ℚ
        (fun t => t.resolved_at.map (fun r2 => r2 - t.created_at)) a as
        (r - a.created_at) (by simp [hr]),
      List.map_cons, ih (fun t ht => h t (List.mem_cons_of_mem a ht))]
    congr 1
    simp [hr]

/-- The avg_resolution_days field of a performance row, spelt out. -/
theorem agentRow_avg_eq (db : Db) (u : User) :
    (agentRow db u).avg_resolution_days =
      (if (((db.tickets.filter (fun t => t.agent_id == some u.id)).filter
          (fun t => t.status == "Resolved")).filterMap
          (fun t => t.resolved_at.map (fun r => r - t.created_at))).isEmpty
       then none
       else some
        ((((db.tickets.filter (fun t => t.agent_id == some u.id)).filter
          (fun t => t.status == "Resolved")).filterMap
          (fun t => t.resolved_at.map (fun r => r - t.created_at))).sum /
         ((((db.tickets.filter (fun t => t.agent_id == some u.id)).filter
          (fun t => t.status == "Resolved")).filterMap
          (fun t => t.resolved_at.map (fun r => r - t.created_at))).length :
          ℚ))) := rfl

/-- Claim C5: the performance report has one row per user with role
agent (the left join keeps zero-ticket agents); assigned_count counts
the tickets carrying that agent's id regardless of status;
resolved_count counts those currently Resolved; avg_resolution_days is
the mean of resolved_at minus created_at in fractional days over the
currently-Resolved tickets, and is null (never zero) when
resolved_count is 0; rows are ordered by resolved_count descending.
The mean clause is stated under the resolution-timestamp invariant,
which holds in every state the repository produces. -/
theorem c5_agent_performance (db : Db)
    (hinv : ∀ t ∈ db.tickets, t.status = "Resolved" →
      t.resolved_at.isSome) :
    (get_agent_performance_report db).length =
      (db.users.filter (fun u => u.role == "agent")).length ∧
    (∀ u ∈ db.users, u.role = "agent" →
      agentRow db u ∈ get_agent_performance_report db) ∧
    (∀ r ∈ get_agent_performance_report db,
      ∃ u ∈ db.users, u.role = "agent" ∧ r = agentRow db u) ∧
    (∀ u : User,
      (agentRow db u).username = u.username ∧
      (agentRow db u).assigned_count =
        db.tickets.countP (fun t => t.agent_id == some u.id) ∧
      (agentRow db u).resolved_count =
        db.tickets.countP (fun t =>
          t.status == "Resolved" && t.agent_id == some u.id)) ∧
    (∀ u : User,
      ((agentRow db u).resolved_count = 0 →
        (agentRow db u).avg_resolution_days = none) ∧
      (0 < (agentRow db u).resolved_count →
        (agentRow db u).avg_resolution_days = some
          ((((db.tickets.filter (fun t => t.agent_id == some u.id)).filter
              (fun t => t.status == "Resolved")).map
              (fun t => t.resolved_at.getD 0 - t.created_at)).sum /
            ((agentRow db u).resolved_count : ℚ)))) ∧
    (get_agent_performance_report db).Pairwise
      (fun a b => b.resolved_count ≤ a.resolved_count) := by
  refine ⟨?_, ?_, ?_, ?_, ?_, ?_⟩
  · unfold get_agent_performance_report
    rw [length_sortByDesc, List.length_map]
  · intro u hu hrole
    unfold get_agent_performance_report
    rw [mem_sortByDesc]
    exact List.mem_map_of_mem _
      (List.mem_filter.mpr ⟨hu, beq_iff_eq.mpr hrole⟩)
  · intro r hr
    unfold get_agent_performance_report at hr
    rw [mem_sortByDesc] at hr
    rcases List.mem_map.mp hr with ⟨u, hu, rfl⟩
    rcases List.mem_filter.mp hu with ⟨hu2, hrole⟩
    exact ⟨u, hu2, beq_iff_eq.mp hrole, rfl⟩
  · intro u
    refine ⟨rfl, ?_, ?_⟩
    · show (db.tickets.filter (fun t => t.agent_id == some u.id)).length = _
      rw [List.countP_eq_length_filter]
    · show ((db.tickets.filter (fun t => t.agent_id == some u.id)).filter
        (fun t => t.status == "Resolved")).length = _
      rw [List.filter_filter, List.countP_eq_length_filter]
  · intro u
    constructor
    · intro h0
      have hres : ((db.tickets.filter (fun t => t.agent_id == some u.id)).filter
          (fun t => t.status == "Resolved")) = [] :=
        List.length_eq_zero.mp h0
      rw [agentRow_avg_eq, hres]
      rfl
    · intro hpos
      have hsome : ∀ t ∈ ((db.tickets.filter
          (fun t => t.agent_id == some u.id)).filter
          (fun t => t.status == "Resolved")), t.resolved_at.isSome := by
        intro t ht2
        rcases List.mem_filter.mp ht2 with ⟨ht1, hst⟩
        rcases List.mem_filter.mp ht1 with ⟨ht0, -⟩
        exact hinv t ht0 (beq_iff_eq.mp hst)
      rw [agentRow_avg_eq, filterMap_durations_eq hsome, if_neg, List.length_map]
      · rfl
      · intro hempty
        rw [List.isEmpty_iff, List.map_eq_nil_iff] at hempty
        have hpos2 : 0 < ((db.tickets.filter
            (fun t => t.agent_id == some u.id)).filter
            (fun t => t.status == "Resolved")).length := hpos
        rw [hempty] at hpos2
        simp at hpos2
  · exact pairwise_sortByDesc _ _

/-- A database realising the spec's worked example: bob has three
assigned tickets, two of them resolved with durations 1 and 3 days;
carol is an agent with no tickets at all. -/
def dbPerf : Db :=
  { users := [⟨1, "alice", "h1", "requester"⟩, ⟨2, "bob", "h2", "agent"⟩,
              ⟨3, "carol", "h3", "agent"⟩]
    tickets := [⟨1, "a", "x", "Resolved", 0, some 1, 1, some 2, some 1⟩,
                ⟨2, "b", "y", "Resolved", 0, some 3, 1, some 2, some 3⟩,
                ⟨3, "c", "z", "Open", 0, none, 1, some 2, none⟩]
    next_user_id := 4
    next_ticket_id := 4 }

/-- Witness for C5 on dbPerf: bob's row (3 assigned, 2 resolved,
average 2.0 days) is in the report, and carol's zero-ticket row carries
a null average, not zero. -/
theorem c5_witness :
    agentRow dbPerf ⟨2, "bob", "h2", "agent"⟩ ∈
      get_agent_performance_report dbPerf ∧
    agentRow dbPerf ⟨2, "bob", "h2", "agent"⟩ = ⟨"bob", 3, 2, some 2⟩ ∧
    agentRow dbPerf ⟨3, "carol", "h3", "agent"⟩ = ⟨"carol", 0, 0, none⟩ :=
  ⟨(c5_agent_performance dbPerf (by decide)).2.1 ⟨2, "bob", "h2", "agent"⟩
      (by decide) rfl,
   by
     simp [agentRow, dbPerf]
     norm_num,
   by simp [agentRow, dbPerf]⟩

end HelpDesk
